import Mathlib

/-!
Verification of the frankie-sinatra recording / transcription scripts.

The repository contains two near-duplicate application classes:
* HotkeyTranscriber (transcribe_hotkey.py), modelled here as structure HApp
  together with the functions prefixed with an h;
* WhisperMenuBarApp (transcribe_menubar.py), modelled here as structure App.

Each Python method is translated as a pure state transformer on the
corresponding structure.  Calls to external collaborators (sounddevice,
soundfile, whisper, pyperclip, pynput key synthesis, os.remove) are modelled
by an explicit environment (structure Env) that supplies the outcome of each
collaborator call, and by an event trace (List Event) recording the calls the
code makes, in order.  Wall-clock time (time.time()) is a rational-number
parameter threaded into every method that reads it.  Python float samples and
timestamps are modelled as rationals; the decibel level that the audio
callback computes from a frame (20*log10(rms), or -100 when rms == 0) is
passed to the callback as an explicit rational argument, since the claims
under verification only concern its comparison against the silence threshold.
Methods that only print, or that touch GUI handles (the rumps menu objects,
the sounddevice stream handle, the pynput controller), keep their state
effects; the handles themselves are reduced to the booleans / strings the
control flow reads (stream open?, menu titles).
-/

/-- Wall-clock timestamps (Python time.time() floats) as rationals. -/
abbrev Time := ℚ

/-- One audio frame: the float32 sample block an InputStream callback gets. -/
abbrev Frame := List ℚ

/-- Python str.strip(): drop leading and trailing whitespace characters. -/
def pyStrip (s : String) : String :=
  ⟨((s.toList.dropWhile Char.isWhitespace).reverse.dropWhile
      Char.isWhitespace).reverse⟩

/-- Observable collaborator calls made by the transcription pipeline, in
order.  concat records np.concatenate over the buffered frames (the number of
frames and the resulting clip); transcribeCall records an invocation of
whisper's transcribe together with the language hint passed (none = the
auto-detect call form); saveText records what is written to the
transcription_*.txt file; deleteFiles records the os.remove attempt of the
keep_audio = false branch (with its outcome); clipboardCopy records
pyperclip.copy and paste the synthesized Cmd+V; noAudio records the
"No audio recorded." outcome of stopping with an empty buffer; noSpeech the
"No speech detected" status shown for a whitespace-only result; errorStatus
the "Status: Error - ..." update made by the except handler. -/
inductive Event where
  | concat (nFrames : Nat) (clip : Frame)
  | saveAudio
  | transcribeCall (language : Option String)
  | saveText (text : String)
  | deleteFiles (ok : Bool)
  | clipboardCopy (text : String)
  | paste
  | noAudio
  | noSpeech
  | errorStatus (msg : String)
deriving DecidableEq, Repr

/-- Number of transcription-service invocations recorded in a trace. -/
def countTranscribe (evs : List Event) : Nat :=
  evs.countP (fun e => match e with
    | Event.transcribeCall _ => true
    | _ => false)

/-- Outcomes of the external collaborator calls a pipeline run can make:
sf.write of the wav file, model.transcribe, writing the txt file, os.remove
of the two artifacts, pyperclip.copy, and the paste keystroke synthesis.
An error value models the call raising an exception with that message. -/
structure Env where
  saveAudio : Except String Unit
  transcribe : Except String String
  saveText : Except String Unit
  deleteOk : Bool
  clipboard : Except String Unit
  paste : Except String Unit

/-- State of WhisperMenuBarApp (transcribe_menubar.py).  Field defaults are
the values assigned in __init__.  stream models whether self.stream holds an
open InputStream (None = false); title / start_stop_title / status_title are
the menu-bar icon, the Start-Stop menu item title and the status menu item
title. -/
structure App where
  model_name : String := "small"
  auto_paste : Bool := true
  auto_stop : Bool := true
  silence_threshold : ℚ := -40
  silence_duration : ℚ := 2
  language : String := "en"
  auto_detect_language : Bool := false
  keep_audio : Bool := true
  hotkey_enabled : Bool := true
  double_tap_delay : ℚ := 3/10
  is_recording : Bool := false
  audio_data : List Frame := []
  stream : Bool := false
  model_loaded : Bool := false
  silence_start_time : Option Time := none
  last_audio_time : Option Time := none
  last_tap_time : Time := 0
  tap_count : Nat := 0
  title : String := "🎤"
  start_stop_title : String := "Start Recording"
  status_title : String := "Status: Ready"
deriving DecidableEq

/-- The state WhisperMenuBarApp.__init__ builds. -/
def initApp : App := {}

/-- The language hint _process_transcription passes to the transcribe call:
the Python test "if self.language:" (string truthiness) selects the
language= call form, else the auto-detect call form. -/
def langHint (a : App) : Option String :=
  if a.language ≠ "" then some a.language else none

/-- WhisperMenuBarApp.start_recording: no-op when already recording, else
set is_recording, clear the frame buffer, reset silence-detection state,
update the menu UI and open the input stream. -/
def start_recording (a : App) (now : Time) : App :=
  if a.is_recording then a
  else
    { a with is_recording := true, audio_data := [],
             silence_start_time := none, last_audio_time := some now,
             title := "🔴", start_stop_title := "Stop Recording",
             status_title := "Status: Recording...", stream := true }

/-- The audio_callback closure defined inside start_recording (identical in
both scripts): when recording, append the frame to audio_data; when auto_stop
is enabled compare the frame's decibel level (db_level, computed by the
source as 20*log10(rms) or -100 for rms = 0) against silence_threshold —
loud clears silence_start_time and refreshes last_audio_time; silence starts
the clock on first silent frame, and once now - silence_start_time reaches
silence_duration it clears is_recording (the auto-stop request). -/
def audio_callback (a : App) (frame : Frame) (db_level : ℚ) (now : Time) :
    App :=
  if a.is_recording then
    let a := { a with audio_data := a.audio_data ++ [frame] }
    if a.auto_stop then
      if db_level > a.silence_threshold then
        { a with silence_start_time := none, last_audio_time := some now }
      else
        match a.silence_start_time with
        | none => { a with silence_start_time := some now }
        | some start =>
          if now - start ≥ a.silence_duration then
            { a with is_recording := false }
          else a
    else a
  else a

/-- Result of the try-block of _process_transcription: ok carries the state
at normal return plus the trace; err carries the exception message reaching
the except handler plus the trace of calls made before the raise. -/
inductive ProcResult where
  | ok (a : App) (events : List Event)
  | err (msg : String) (events : List Event)

/-- The try-block of WhisperMenuBarApp._process_transcription, step by step:
concatenate audio_data, sf.write the wav, call transcribe with the langHint
call form, strip the result text (empty means the no-speech outcome: status
shown then reset to Ready, nothing delivered), write the txt file, delete
both artifacts when keep_audio is false (os.remove failures are caught by
the inner try and only logged), pyperclip.copy the stripped text, and when
auto_paste is set synthesize Cmd+V; on normal return the UI is reset to the
Ready state.  Any collaborator error aborts the remaining steps and is
returned as err for the except handler. -/
def process_transcription_try (a : App) (env : Env) : ProcResult :=
  let clip := a.audio_data.flatten
  let ev := [Event.concat a.audio_data.length clip]
  match env.saveAudio with
  | Except.error e => ProcResult.err e ev
  | Except.ok _ =>
    let ev := ev ++ [Event.saveAudio, Event.transcribeCall (langHint a)]
    match env.transcribe with
    | Except.error e => ProcResult.err e ev
    | Except.ok text =>
      let t := pyStrip text
      if t = "" then
        ProcResult.ok
          { a with title := "🎤", status_title := "Status: Ready" }
          (ev ++ [Event.noSpeech])
      else
        match env.saveText with
        | Except.error e => ProcResult.err e ev
        | Except.ok _ =>
          let ev := ev ++ [Event.saveText t]
          let ev := if a.keep_audio then ev
                    else ev ++ [Event.deleteFiles env.deleteOk]
          match env.clipboard with
          | Except.error e => ProcResult.err e ev
          | Except.ok _ =>
            let ev := ev ++ [Event.clipboardCopy t]
            if a.auto_paste then
              match env.paste with
              | Except.error e => ProcResult.err e ev
              | Except.ok _ =>
                ProcResult.ok
                  { a with title := "🎤", status_title := "Status: Ready" }
                  (ev ++ [Event.paste])
            else
              ProcResult.ok
                { a with title := "🎤", status_title := "Status: Ready" }
                ev

/-- WhisperMenuBarApp._process_transcription: the try-block, with the except
handler turning any raised step into a status update (errorStatus) followed
by the spawned reset_after_error thread restoring the Ready UI; the state
shown is the one after that reset completes. -/
def process_transcription (a : App) (env : Env) : App × List Event :=
  match process_transcription_try a env with
  | ProcResult.ok a2 ev => (a2, ev)
  | ProcResult.err msg ev =>
    ({ a with title := "🎤", status_title := "Status: Ready" },
     ev ++ [Event.errorStatus msg])

/-- WhisperMenuBarApp.stop_recording: with an empty buffer, stop the stream
if one is recording, report "No audio recorded." and reset the UI to Ready
(a plain no-op when also not recording).  With a non-empty buffer, clear
is_recording, switch the UI to the Transcribing state, close the stream,
re-check the buffer (unreachable sequentially since nothing cleared it) and
hand the state to the background _process_transcription thread; the buffer
itself is never cleared here. -/
def stop_recording (a : App) (env : Env) : App × List Event :=
  if a.audio_data = [] then
    if a.is_recording then
      ({ a with is_recording := false, stream := false,
                title := "🎤", start_stop_title := "Start Recording",
                status_title := "Status: Ready" }, [Event.noAudio])
    else (a, [])
  else
    let a := { a with is_recording := false,
                      title := "⏳", start_stop_title := "Start Recording",
                      status_title := "Status: Transcribing...",
                      stream := false }
    if a.audio_data = [] then
      ({ a with title := "🎤", status_title := "Status: Ready" },
       [Event.noAudio])
    else
      process_transcription a env

/-- WhisperMenuBarApp.toggle_auto_paste. -/
def toggle_auto_paste (a : App) : App := { a with auto_paste := !a.auto_paste }

/-- WhisperMenuBarApp.toggle_auto_stop. -/
def toggle_auto_stop (a : App) : App := { a with auto_stop := !a.auto_stop }

/-- WhisperMenuBarApp.toggle_keep_audio. -/
def toggle_keep_audio (a : App) : App := { a with keep_audio := !a.keep_audio }

/-- WhisperMenuBarApp.toggle_hotkey (listener start and stop are handled by
the pynput collaborator; only the flag is state). -/
def toggle_hotkey (a : App) : App :=
  { a with hotkey_enabled := !a.hotkey_enabled }

/-- WhisperMenuBarApp.load_model run to completion: on success the model is
loaded and the status reset to Ready, on failure only the status changes. -/
def load_model (a : App) (ok : Bool) : App :=
  if ok then { a with model_loaded := true, status_title := "Status: Ready" }
  else { a with status_title := "Status: Error loading model" }

/-- WhisperMenuBarApp.toggle_recording: alert and return while the model is
still loading, else stop when recording and start otherwise. -/
def toggle_recording (a : App) (now : Time) (env : Env) : App × List Event :=
  if !a.model_loaded then (a, [])
  else if a.is_recording then stop_recording a env
  else (start_recording a now, [])

/-- WhisperMenuBarApp.on_right_cmd_tap: a tap within double_tap_delay of
last_tap_time zeroes tap_count and toggles recording, any other tap sets
tap_count to 1; either way last_tap_time becomes the current time. -/
def app_on_right_cmd_tap (a : App) (now : Time) (env : Env) :
    App × List Event :=
  if now - a.last_tap_time < a.double_tap_delay then
    let p := toggle_recording { a with tap_count := 0 } now env
    ({ p.1 with last_tap_time := now }, p.2)
  else
    ({ a with tap_count := 1, last_tap_time := now }, [])

/-- One externally triggered operation on the menu-bar app: the background
model load finishing, a settings toggle, a right-Cmd key tap, a menu-item
toggle, a direct start or stop (as the monitor thread performs), or the
arrival of one audio frame with its decibel level and timestamp. -/
inductive MOp where
  | loadModel (ok : Bool)
  | toggleAutoPaste
  | toggleAutoStop
  | toggleKeepAudio
  | toggleHotkey
  | rightCmdTap (now : Time) (env : Env)
  | menuToggle (now : Time) (env : Env)
  | startRec (now : Time)
  | stopRec (env : Env)
  | frame (f : Frame) (db : ℚ) (now : Time)

/-- Apply one operation to the menu-bar app state. -/
def mstep (a : App) (op : MOp) : App :=
  match op with
  | MOp.loadModel ok => load_model a ok
  | MOp.toggleAutoPaste => toggle_auto_paste a
  | MOp.toggleAutoStop => toggle_auto_stop a
  | MOp.toggleKeepAudio => toggle_keep_audio a
  | MOp.toggleHotkey => toggle_hotkey a
  | MOp.rightCmdTap now env => (app_on_right_cmd_tap a now env).1
  | MOp.menuToggle now env => (toggle_recording a now env).1
  | MOp.startRec now => start_recording a now
  | MOp.stopRec env => (stop_recording a env).1
  | MOp.frame f db now => audio_callback a f db now

/-- Run a sequence of operations from the freshly constructed app. -/
def runOps (ops : List MOp) : App := ops.foldl mstep initApp

/-- State of HotkeyTranscriber (transcribe_hotkey.py); field defaults are
the __init__ assignments for the default constructor arguments. -/
structure HApp where
  model_name : String := "base"
  hotkey : String := "double-cmd"
  double_tap_delay : ℚ := 3/10
  use_double_tap : Bool := true
  auto_paste : Bool := true
  auto_stop : Bool := true
  silence_threshold : ℚ := -40
  silence_duration : ℚ := 2
  is_recording : Bool := false
  audio_data : List Frame := []
  stream : Bool := false
  last_tap_time : Time := 0
  tap_count : Nat := 0
  silence_start_time : Option Time := none
  last_audio_time : Option Time := none
deriving DecidableEq

/-- The state HotkeyTranscriber.__init__ builds with default arguments. -/
def initHApp : HApp := {}

/-- HotkeyTranscriber.stop_recording: empty buffer behaves as in the menu-bar
app (minus UI).  With a non-empty buffer it clears is_recording, closes the
stream, re-checks the buffer, then runs the whole pipeline inline with no
try/except: concatenate, sf.write the wav, transcribe with no language
argument, write the raw result text to the txt file, copy the stripped text
to the clipboard unconditionally, and paste when auto_paste is set.  A
collaborator exception therefore propagates out of stop_recording to its
caller, modelled as the Except.error result. -/
def hstop_recording (a : HApp) (env : Env) :
    Except String (HApp × List Event) :=
  if a.audio_data = [] then
    if a.is_recording then
      Except.ok ({ a with is_recording := false, stream := false },
        [Event.noAudio])
    else Except.ok (a, [])
  else
    let a := { a with is_recording := false, stream := false }
    if a.audio_data = [] then Except.ok (a, [Event.noAudio])
    else
      let clip := a.audio_data.flatten
      let ev := [Event.concat a.audio_data.length clip]
      match env.saveAudio with
      | Except.error e => Except.error e
      | Except.ok _ =>
        let ev := ev ++ [Event.saveAudio, Event.transcribeCall none]
        match env.transcribe with
        | Except.error e => Except.error e
        | Except.ok text =>
          match env.saveText with
          | Except.error e => Except.error e
          | Except.ok _ =>
            let ev := ev ++ [Event.saveText text]
            let t := pyStrip text
            match env.clipboard with
            | Except.error e => Except.error e
            | Except.ok _ =>
              let ev := ev ++ [Event.clipboardCopy t]
              if a.auto_paste then
                match env.paste with
                | Except.error e => Except.error e
                | Except.ok _ => Except.ok (a, ev ++ [Event.paste])
              else Except.ok (a, ev)

/-- Trace of a hotkey stop_recording call that returned normally. -/
def hstopEvents (a : HApp) (env : Env) : List Event :=
  match hstop_recording a env with
  | Except.ok p => p.2
  | Except.error _ => []

/-- The double-tap detector state both scripts keep: last_tap_time starts at
0 (the epoch) and tap_count at 0 in both __init__ methods. -/
structure TapState where
  last_tap_time : Time
  tap_count : Nat
deriving DecidableEq

/-- Detector state right after construction. -/
def initTapState : TapState := { last_tap_time := 0, tap_count := 0 }

/-- The on_right_cmd_tap decision logic shared verbatim by both scripts,
with the toggle_recording side effect abstracted to the returned boolean
(true = this tap activated, i.e. entered the double-tap branch): a tap with
now - last_tap_time < delay zeroes tap_count and activates, otherwise
tap_count becomes 1; last_tap_time becomes now in both branches. -/
def tapStep (delay : ℚ) (s : TapState) (now : Time) : TapState × Bool :=
  if now - s.last_tap_time < delay then
    ({ last_tap_time := now, tap_count := 0 }, true)
  else
    ({ last_tap_time := now, tap_count := 1 }, false)

/-- Number of activations a fresh detector emits on a sequence of qualifying
key-down timestamps. -/
def tapActivations (delay : ℚ) (taps : List Time) : Nat :=
  (taps.foldl
    (fun (p : TapState × Nat) now =>
      let r := tapStep delay p.1 now
      (r.1, p.2 + if r.2 then 1 else 0))
    (initTapState, 0)).2

/-- The combo-mode on_press closure of HotkeyTranscriber.run: add the key to
current_keys (a set: adding a present key changes nothing), then report
whether hotkey_combo is a subset of current_keys — when it is, the source
calls toggle_recording.  Keys are abstracted to naturals. -/
def combo_on_press (hotkey_combo current_keys : List Nat) (key : Nat) :
    List Nat × Bool :=
  let current_keys :=
    if key ∈ current_keys then current_keys else current_keys ++ [key]
  (current_keys, hotkey_combo.all (fun k => decide (k ∈ current_keys)))

/-- The combo-mode on_release closure: discard the key, swallowing the
KeyError when it is absent. -/
def combo_on_release (current_keys : List Nat) (key : Nat) : List Nat :=
  current_keys.filter (fun k => k ≠ key)

/-- A raw key event delivered by the pynput listener. -/
inductive KeyEv where
  | down (k : Nat)
  | up (k : Nat)
deriving DecidableEq

/-- Run the combo-mode listener over a key-event stream from an empty
current_keys set, counting how many events trigger toggle_recording. -/
def combo_run (combo : List Nat) (events : List KeyEv) : List Nat × Nat :=
  events.foldl
    (fun (st : List Nat × Nat) e =>
      match e with
      | KeyEv.down k =>
        let r := combo_on_press combo st.1 k
        (r.1, st.2 + if r.2 then 1 else 0)
      | KeyEv.up k => (combo_on_release st.1 k, st.2))
    ([], 0)

/-- Feed the audio callback a list of (db_level, timestamp) observations. -/
def callbackRun (a : App) (xs : List (ℚ × Time)) : App :=
  xs.foldl (fun s p => audio_callback s [0] p.1 p.2) a

/-- Timestamps 0.1, 0.2, ... of n frames observed every 0.1 s, paired with a
decibel level of -50 (below the -40 threshold, hence silent). -/
def silentTimes (n : Nat) : List (ℚ × Time) :=
  (List.range n).map (fun k => ((-50 : ℚ), ((k : ℚ) + 1) / 10))

/-- An environment in which every collaborator call succeeds and the
transcription result is " hello ". -/
def envOk : Env :=
  { saveAudio := Except.ok (), transcribe := Except.ok " hello ",
    saveText := Except.ok (), deleteOk := true,
    clipboard := Except.ok (), paste := Except.ok () }

/-- envOk with a whitespace-only transcription result. -/
def envWs : Env := { envOk with transcribe := Except.ok "   " }

/-- envOk with the transcribe call raising "boom". -/
def envTfail : Env := { envOk with transcribe := Except.error "boom" }

/-- A menu-bar session mid-recording with one buffered frame. -/
def recApp : App :=
  { initApp with is_recording := true, stream := true, model_loaded := true,
                 audio_data := [[1]], title := "🔴",
                 start_stop_title := "Stop Recording",
                 status_title := "Status: Recording..." }

/-- A menu-bar session whose finalized clip is still being transcribed by
the background thread: is_recording already false, buffer still holding the
in-flight frames, UI in the Transcribing state. -/
def transcribingApp : App :=
  { initApp with is_recording := false, stream := false,
                 model_loaded := true, audio_data := [[1]],
                 title := "⏳", start_stop_title := "Start Recording",
                 status_title := "Status: Transcribing..." }

/-- A hotkey session mid-recording with one buffered frame. -/
def hRecApp : HApp :=
  { initHApp with is_recording := true, stream := true, audio_data := [[0]] }

/-- A menu-bar session that is recording but has not buffered any frame. -/
def emptyRecApp : App :=
  { initApp with is_recording := true, stream := true, model_loaded := true }

/-- A hotkey session that is recording but has not buffered any frame. -/
def hEmptyRecApp : HApp :=
  { initHApp with is_recording := true, stream := true }


/-- Whatever the collaborator outcomes, _process_transcription ends with the
menu-bar UI reset to the Ready state and every other field untouched: all of
its return paths, including the except handler with its reset thread, build
exactly this state. -/
theorem process_transcription_state (a : App) (env : Env) :
    (process_transcription a env).1 =
      { a with title := "🎤", status_title := "Status: Ready" } := by
  obtain ⟨sa, tr, st, del, cb, ps⟩ := env
  cases sa <;> cases tr <;> cases st <;> cases cb <;> cases ps <;>
    simp only [process_transcription, process_transcription_try] <;>
    split_ifs <;> rfl

/-- Trace of a pipeline run whose transcribe call raises: the wav is saved,
the transcribe call is made and the except handler records the error status
update. -/
theorem process_transcription_error_events (a : App) (env : Env)
    (msg : String) (hsa : env.saveAudio = Except.ok ())
    (htr : env.transcribe = Except.error msg) :
    (process_transcription a env).2 =
      [Event.concat a.audio_data.length a.audio_data.flatten,
       Event.saveAudio, Event.transcribeCall (langHint a),
       Event.errorStatus msg] := by
  obtain ⟨sa, tr, st, del, cb, ps⟩ := env
  simp only at hsa htr
  subst hsa htr
  rfl

/-- State left by stop_recording on a non-empty buffer: recording and stream
flags cleared and the UI back at Ready once the pipeline finishes — and the
frame buffer still holding all its frames. -/
theorem stop_recording_nonempty_state (a : App) (env : Env)
    (h : a.audio_data ≠ []) :
    (stop_recording a env).1 =
      { a with is_recording := false, stream := false, title := "🎤",
               start_stop_title := "Start Recording",
               status_title := "Status: Ready" } := by
  simp only [stop_recording, h, ite_false]
  rw [process_transcription_state]

/-- Events of stop_recording on a non-empty buffer are exactly those of the
spawned pipeline run. -/
theorem stop_recording_nonempty_events (a : App) (env : Env)
    (h : a.audio_data ≠ []) :
    (stop_recording a env).2 =
      (process_transcription
        { a with is_recording := false, title := "⏳",
                 start_stop_title := "Start Recording",
                 status_title := "Status: Transcribing...",
                 stream := false } env).2 := by
  simp only [stop_recording, h, ite_false]

/-- Each pipeline run whose sf.write succeeds makes exactly one transcribe
invocation, whatever happens afterwards. -/
theorem process_transcription_count (a : App) (env : Env)
    (hsa : env.saveAudio = Except.ok ()) :
    countTranscribe (process_transcription a env).2 = 1 := by
  obtain ⟨sa, tr, st, del, cb, ps⟩ := env
  simp only at hsa
  subst hsa
  cases tr <;> cases st <;> cases cb <;> cases ps <;>
    simp only [process_transcription, process_transcription_try] <;>
    (try split_ifs) <;>
    simp [countTranscribe]

/-- Every transcribe invocation a pipeline run records carries the langHint
of the state it ran on. -/
theorem process_transcription_lang_events (a : App) (env : Env)
    (l : Option String)
    (h : Event.transcribeCall l ∈ (process_transcription a env).2) :
    l = langHint a := by
  obtain ⟨sa, tr, st, del, cb, ps⟩ := env
  cases sa <;> cases tr <;> cases st <;> cases cb <;> cases ps <;>
    simp only [process_transcription, process_transcription_try] at h <;>
    (try split_ifs at h) <;> simp_all

/-- Field preservation: start_recording never touches the language settings. -/
theorem start_recording_meta (a : App) (now : Time) :
    (start_recording a now).language = a.language ∧
    (start_recording a now).auto_detect_language = a.auto_detect_language := by
  simp only [start_recording]
  split_ifs <;> exact ⟨rfl, rfl⟩

/-- Field preservation: the audio callback never touches the language
settings. -/
theorem audio_callback_meta (a : App) (f : Frame) (db : ℚ) (now : Time) :
    (audio_callback a f db now).language = a.language ∧
    (audio_callback a f db now).auto_detect_language =
      a.auto_detect_language := by
  simp only [audio_callback]
  repeat' split
  all_goals exact ⟨rfl, rfl⟩

/-- Field preservation: stop_recording never touches the language settings. -/
theorem stop_recording_meta (a : App) (env : Env) :
    ((stop_recording a env).1).language = a.language ∧
    ((stop_recording a env).1).auto_detect_language =
      a.auto_detect_language := by
  by_cases h : a.audio_data = []
  · simp only [stop_recording, h, ite_true, eq_self_iff_true]
    split_ifs <;> exact ⟨rfl, rfl⟩
  · rw [stop_recording_nonempty_state a env h]
    exact ⟨rfl, rfl⟩

/-- Field preservation: stop_recording never clears the frame buffer. -/
theorem stop_recording_audio_data (a : App) (env : Env) :
    ((stop_recording a env).1).audio_data = a.audio_data := by
  by_cases h : a.audio_data = []
  · simp only [stop_recording, h, ite_true, eq_self_iff_true]
    split_ifs <;> simp [h]
  · rw [stop_recording_nonempty_state a env h]

/-- Field preservation: toggle_recording never touches the language
settings. -/
theorem toggle_recording_meta (a : App) (now : Time) (env : Env) :
    ((toggle_recording a now env).1).language = a.language ∧
    ((toggle_recording a now env).1).auto_detect_language =
      a.auto_detect_language := by
  simp only [toggle_recording]
  split_ifs
  · exact ⟨rfl, rfl⟩
  · exact stop_recording_meta a env
  · exact start_recording_meta a now

/-- Field preservation: on_right_cmd_tap never touches the language
settings. -/
theorem app_tap_meta (a : App) (now : Time) (env : Env) :
    ((app_on_right_cmd_tap a now env).1).language = a.language ∧
    ((app_on_right_cmd_tap a now env).1).auto_detect_language =
      a.auto_detect_language := by
  simp only [app_on_right_cmd_tap]
  split_ifs
  · exact toggle_recording_meta { a with tap_count := 0 } now env
  · exact ⟨rfl, rfl⟩

/-- Field preservation: no operation on the menu-bar app assigns the
language settings. -/
theorem mstep_meta (a : App) (op : MOp) :
    (mstep a op).language = a.language ∧
    (mstep a op).auto_detect_language = a.auto_detect_language := by
  cases op with
  | loadModel ok =>
    simp only [mstep, load_model]
    split_ifs <;> exact ⟨rfl, rfl⟩
  | toggleAutoPaste => exact ⟨rfl, rfl⟩
  | toggleAutoStop => exact ⟨rfl, rfl⟩
  | toggleKeepAudio => exact ⟨rfl, rfl⟩
  | toggleHotkey => exact ⟨rfl, rfl⟩
  | rightCmdTap now env => exact app_tap_meta a now env
  | menuToggle now env => exact toggle_recording_meta a now env
  | startRec now => exact start_recording_meta a now
  | stopRec env => exact stop_recording_meta a env
  | frame f db now => exact audio_callback_meta a f db now

/-- Field preservation lifted to arbitrary operation sequences. -/
theorem foldl_mstep_meta (ops : List MOp) (a : App) :
    (ops.foldl mstep a).language = a.language ∧
    (ops.foldl mstep a).auto_detect_language = a.auto_detect_language := by
  induction ops generalizing a with
  | nil => exact ⟨rfl, rfl⟩
  | cons op l ih =>
    exact ⟨((ih (mstep a op)).1).trans (mstep_meta a op).1,
           ((ih (mstep a op)).2).trans (mstep_meta a op).2⟩

/-- C1 counterexample: stopping a one-frame session twice in immediate
succession invokes the transcription pipeline twice, not once — the second
stop_recording call is not a no-op because the frame buffer survives the
first call. -/
theorem stop_stop_reprocesses :
    countTranscribe ((stop_recording recApp envOk).2 ++
      (stop_recording (stop_recording recApp envOk).1 envOk).2) = 2 := by
  decide

/-- C1 (amended): stop_recording is not idempotent on a non-empty buffer —
the buffer is never cleared, so each of two immediately successive calls
concatenates the frames and invokes the transcription pipeline once,
performing two finalizes in total. -/
theorem stop_twice_two_finalizes (a : App) (env : Env)
    (h : a.audio_data ≠ []) (hsa : env.saveAudio = Except.ok ()) :
    countTranscribe (stop_recording a env).2 = 1 ∧
    countTranscribe (stop_recording (stop_recording a env).1 env).2 = 1 := by
  refine ⟨?_, ?_⟩
  · rw [stop_recording_nonempty_events a env h]
    exact process_transcription_count _ env hsa
  · have h2 : ((stop_recording a env).1).audio_data ≠ [] := by
      rw [stop_recording_audio_data]; exact h
    rw [stop_recording_nonempty_events _ env h2]
    exact process_transcription_count _ env hsa

/-- C1 witness: the amended statement at the concrete one-frame session. -/
theorem stop_twice_two_finalizes_w :
    countTranscribe (stop_recording recApp envOk).2 = 1 ∧
    countTranscribe
      (stop_recording (stop_recording recApp envOk).1 envOk).2 = 1 :=
  stop_twice_two_finalizes recApp envOk (by decide) rfl

/-- C2 counterexample: with a finalized clip still in flight (the session is
in the Transcribing state, buffer non-empty, is_recording already false),
start_recording is not a no-op — it begins a new recording and clears the
in-flight frame buffer. -/
theorem start_while_transcribing_clobbers :
    (start_recording transcribingApp 5).is_recording = true ∧
    (start_recording transcribingApp 5).audio_data = [] ∧
    transcribingApp.audio_data ≠ [] ∧
    transcribingApp.status_title = "Status: Transcribing..." := by
  decide

/-- C2 (amended): start_recording is guarded only by is_recording — it is a
no-op exactly while recording; from any non-recording state (including
Finalizing / Transcribing, which the code does not track for gating) it
begins a new recording and clears the frame buffer. -/
theorem start_noop_only_when_recording (a : App) (now : Time) :
    (a.is_recording = true → start_recording a now = a) ∧
    (a.is_recording = false →
      (start_recording a now).is_recording = true ∧
      (start_recording a now).audio_data = []) := by
  constructor
  · intro h; simp [start_recording, h]
  · intro h; simp [start_recording, h]

/-- C2 witness: the amended statement at concrete recording and
transcribing sessions. -/
theorem start_noop_only_when_recording_w :
    start_recording recApp 0 = recApp ∧
    ((start_recording transcribingApp 0).is_recording = true ∧
     (start_recording transcribingApp 0).audio_data = []) :=
  ⟨(start_noop_only_when_recording recApp 0).1 rfl,
   (start_noop_only_when_recording transcribingApp 0).2 rfl⟩

/-- C3 counterexample: with window 0.3 s, qualifying key-downs at t = 0.0
and t = 0.25 yield two activations, not exactly one, and key-downs at
t = 0.0 and t = 0.5 yield one activation, not zero — because last_tap_time
starts at the epoch and is set to the tap time after an activation rather
than reset to the epoch. -/
theorem double_tap_example_counts :
    tapActivations (3/10) [0, 1/4] ≠ 1 ∧
    tapActivations (3/10) [0, 1/2] ≠ 0 := by
  norm_num [tapActivations, tapStep, initTapState, List.foldl]

/-- C3 (amended): on a qualifying key-down at time now, if
now - last_tap_time < double_tap_window the detector emits Activate, and in
both branches it records now as last_tap_time (it never resets it to the
epoch), so a third tap inside the window after an activation re-triggers:
from a fresh detector, taps at 0.0 and 0.25 with window 0.3 yield two
Activates (the first tap activates against the epoch), taps at 0.0 and 0.5
yield one, and taps at 100.0, 100.25, 100.5 yield two. -/
theorem double_tap_records_now :
    (∀ (delay : ℚ) (s : TapState) (now : Time),
        ((tapStep delay s now).1).last_tap_time = now) ∧
    tapActivations (3/10) [0, 1/4] = 2 ∧
    tapActivations (3/10) [0, 1/2] = 1 ∧
    tapActivations (3/10) [100, 100 + 1/4, 100 + 1/2] = 2 := by
  refine ⟨?_,
    by norm_num [tapActivations, tapStep, initTapState, List.foldl],
    by norm_num [tapActivations, tapStep, initTapState, List.foldl],
    by norm_num [tapActivations, tapStep, initTapState, List.foldl]⟩
  intro delay s now
  simp only [tapStep]
  split_ifs <;> rfl

/-- C4 counterexample: threshold -40 dB, duration 2.0 s, one frame every
0.1 s — after the 20th consecutive silent frame the session is still
recording (verdict Continue), contradicting ThresholdExceeded on the 20th:
the first silent frame only starts the silence clock. -/
theorem twentieth_silent_frame_continues :
    (callbackRun recApp (silentTimes 20)).is_recording = true := by
  norm_num [callbackRun, silentTimes, audio_callback, recApp, initApp,
    List.foldl, List.range_succ]

/-- C4 (amended): with threshold -40 dB, duration 2.0 s and one frame every
0.1 s, a run of consecutive silent frames leaves the session recording
through the 20th frame and stops it on the 21st (the first silent frame
starts the clock, ThresholdExceeded fires when now - running_silence_start
reaches 2.0 s); any loud frame clears running_silence_start while the
session keeps recording, so the next ThresholdExceeded requires a fresh
2.0 s of silence after it — with a loud frame at t = 1.0, 21 frames through
t = 2.1 still leave the session recording. -/
theorem silence_autostop_timing :
    (callbackRun recApp (silentTimes 20)).is_recording = true ∧
    (callbackRun recApp (silentTimes 21)).is_recording = false ∧
    (∀ (a : App) (f : Frame) (db : ℚ) (now : Time),
        a.is_recording = true → a.auto_stop = true →
        db > a.silence_threshold →
        (audio_callback a f db now).silence_start_time = none ∧
        (audio_callback a f db now).is_recording = true) ∧
    (callbackRun recApp ((List.range 21).map
        (fun k => (if k = 9 then (-10 : ℚ) else -50,
                   ((k : ℚ) + 1) / 10)))).is_recording = true := by
  refine ⟨by norm_num [callbackRun, silentTimes, audio_callback, recApp,
      initApp, List.foldl, List.range_succ],
    by norm_num [callbackRun, silentTimes, audio_callback, recApp, initApp,
      List.foldl, List.range_succ],
    ?_,
    by norm_num [callbackRun, audio_callback, recApp, initApp, List.foldl,
      List.range_succ]⟩
  intro a f db now h1 h2 h3
  simp [audio_callback, h1, h2, h3]

/-- C4 witness: the loud-frame clause of the amended statement at a
concrete loud frame. -/
theorem silence_autostop_timing_w :
    (audio_callback recApp [0] (-10) 1).silence_start_time = none ∧
    (audio_callback recApp [0] (-10) 1).is_recording = true :=
  silence_autostop_timing.2.2.1 recApp [0] (-10) 1 (by decide) (by decide)
    (by decide)

/-- C5 counterexample: in the hotkey variant a whitespace-only transcription
result is still delivered downstream — the empty stripped text is copied to
the clipboard and the paste keystroke is synthesized. -/
theorem hotkey_empty_text_delivered :
    Event.clipboardCopy "" ∈ hstopEvents hRecApp envWs ∧
    Event.paste ∈ hstopEvents hRecApp envWs := by
  decide

/-- C5 (amended): only the menu-bar variant treats an empty-after-trimming
result as the no-speech terminal outcome — its pipeline then makes no
clipboard copy and synthesizes no paste; the hotkey variant has no such
check and copies and pastes the empty text. -/
theorem menubar_no_delivery_on_empty_text (a : App) (env : Env)
    (text : String) (htr : env.transcribe = Except.ok text)
    (hw : pyStrip text = "") :
    (∀ s, Event.clipboardCopy s ∉ (process_transcription a env).2) ∧
    Event.paste ∉ (process_transcription a env).2 := by
  obtain ⟨sa, tr, st, del, cb, ps⟩ := env
  simp only at htr
  subst htr
  cases sa <;> simp [process_transcription, process_transcription_try, hw]

/-- C5 witness: the amended statement at a concrete whitespace-only
result. -/
theorem menubar_no_delivery_on_empty_text_w :
    (Event.clipboardCopy "" ∉ (process_transcription recApp envWs).2) ∧
    Event.paste ∉ (process_transcription recApp envWs).2 :=
  ⟨(menubar_no_delivery_on_empty_text recApp envWs "   " rfl (by decide)).1 "",
   (menubar_no_delivery_on_empty_text recApp envWs "   " rfl (by decide)).2⟩

/-- C6 counterexample: in the hotkey variant a transcribe failure is not
caught — the exception propagates out of stop_recording to the key-listener
callback. -/
theorem hotkey_stop_error_escapes :
    hstop_recording hRecApp envTfail = Except.error "boom" := by
  rfl

/-- C6 (amended): only the menu-bar variant contains pipeline failures —
whichever collaborator call fails, _process_transcription catches it, turns
it into an error status update and the session lands back at the Ready
state with the frame buffer and recording flag as stop_recording left them;
the hotkey variant runs the same steps with no handler, so a failure
propagates out of stop_recording. -/
theorem pipeline_error_containment (a : App) (ha : HApp) (env : Env)
    (msg : String) (hnd : a.audio_data ≠ []) (hha : ha.audio_data ≠ []) :
    ((stop_recording a env).1 =
      { a with is_recording := false, stream := false, title := "🎤",
               start_stop_title := "Start Recording",
               status_title := "Status: Ready" }) ∧
    (env.saveAudio = Except.ok () → env.transcribe = Except.error msg →
      Event.errorStatus msg ∈ (stop_recording a env).2) ∧
    (env.saveAudio = Except.ok () → env.transcribe = Except.error msg →
      hstop_recording ha env = Except.error msg) := by
  refine ⟨stop_recording_nonempty_state a env hnd, ?_, ?_⟩
  · intro hsa htr
    rw [stop_recording_nonempty_events a env hnd,
        process_transcription_error_events _ env msg hsa htr]
    simp
  · intro hsa htr
    obtain ⟨sa, tr, st, del, cb, ps⟩ := env
    simp only at hsa htr
    subst hsa htr
    simp [hstop_recording, hha]

/-- C6 witness: the amended statement at a concrete failing transcribe
call. -/
theorem pipeline_error_containment_w :
    Event.errorStatus "boom" ∈ (stop_recording recApp envTfail).2 ∧
    hstop_recording hRecApp envTfail = Except.error "boom" :=
  ⟨(pipeline_error_containment recApp hRecApp envTfail "boom"
      (by decide) (by decide)).2.1 rfl rfl,
   (pipeline_error_containment recApp hRecApp envTfail "boom"
      (by decide) (by decide)).2.2 rfl rfl⟩

/-- C7 counterexample: one physical press of the cmd+shift combo followed by
one OS key-repeat of the last key emits two activations, not one. -/
theorem combo_key_repeat_double_activation :
    (combo_run [1, 2] [KeyEv.down 1, KeyEv.down 2, KeyEv.down 2]).2 = 2 := by
  decide

/-- Membership of the pressed key after a combo key-down. -/
theorem combo_press_mem (combo cur : List Nat) (k : Nat) :
    k ∈ (combo_on_press combo cur k).1 := by
  simp only [combo_on_press]
  split_ifs with h
  · exact h
  · simp

/-- Pressing a key already in the set leaves the set unchanged. -/
theorem combo_press_self (combo cur : List Nat) (k : Nat) (h : k ∈ cur) :
    (combo_on_press combo cur k).1 = cur := by
  simp [combo_on_press, h]

/-- The activation test of a combo key-down is the subset check on the
updated set. -/
theorem combo_press_spec (combo cur : List Nat) (k : Nat) :
    (combo_on_press combo cur k).2 =
      combo.all (fun x => decide (x ∈ (combo_on_press combo cur k).1)) :=
  rfl

/-- C7 (amended): combo mode is level-triggered, not edge-triggered — the
handler emits an activation on every key-down after which the combo is a
subset of the pressed keys, so a duplicate OS key-repeat event of a held
key, arriving right after an activating key-down, activates again. -/
theorem combo_level_triggered (combo cur : List Nat) (k : Nat)
    (h : (combo_on_press combo cur k).2 = true) :
    (combo_on_press combo (combo_on_press combo cur k).1 k).2 = true := by
  rw [combo_press_spec, combo_press_self combo _ k (combo_press_mem combo cur k)]
  rw [combo_press_spec] at h
  exact h

/-- C7 witness: the amended statement at the concrete cmd+shift press. -/
theorem combo_level_triggered_w :
    (combo_on_press [1, 2] (combo_on_press [1, 2] [1] 2).1 2).2 = true :=
  combo_level_triggered [1, 2] [1] 2 (by decide)

/-- C8: stopping a session whose frame buffer is empty produces only the
explicit no-audio outcome in both variants — no concatenation, no pipeline
invocation, and the session goes directly back to the idle state (recording
flag cleared, stream closed, menu-bar UI at Ready). -/
theorem empty_buffer_stop_no_pipeline (a : App) (ha : HApp) (env : Env)
    (h : a.audio_data = []) (hr : a.is_recording = true)
    (hh : ha.audio_data = []) (hhr : ha.is_recording = true) :
    stop_recording a env =
      ({ a with is_recording := false, stream := false, title := "🎤",
                start_stop_title := "Start Recording",
                status_title := "Status: Ready" }, [Event.noAudio]) ∧
    hstop_recording ha env =
      Except.ok ({ ha with is_recording := false, stream := false },
        [Event.noAudio]) := by
  constructor
  · simp [stop_recording, h, hr]
  · simp [hstop_recording, hh, hhr]

/-- C8 witness: the statement at concrete recording sessions with empty
buffers. -/
theorem empty_buffer_stop_no_pipeline_w :
    stop_recording emptyRecApp envOk =
      ({ emptyRecApp with is_recording := false, stream := false,
                          title := "🎤",
                          start_stop_title := "Start Recording",
                          status_title := "Status: Ready" },
       [Event.noAudio]) ∧
    hstop_recording hEmptyRecApp envOk =
      Except.ok ({ hEmptyRecApp with is_recording := false,
                                     stream := false },
        [Event.noAudio]) :=
  empty_buffer_stop_no_pipeline emptyRecApp hEmptyRecApp envOk
    rfl rfl rfl rfl

/-- C9: in the menu-bar variant no operation sequence ever changes language
from its initial "en" or auto_detect_language from false, the language hint
computed for the transcribe call is always some "en", and every transcribe
invocation the pipeline records from such a state carries the hint
some "en" — the auto-detect call form is unreachable. -/
theorem menubar_language_always_en (ops : List MOp) :
    (runOps ops).language = "en" ∧
    (runOps ops).auto_detect_language = false ∧
    langHint (runOps ops) = some "en" ∧
    (∀ (env : Env) (l : Option String),
      Event.transcribeCall l ∈ (process_transcription (runOps ops) env).2 →
      l = some "en") := by
  have h := foldl_mstep_meta ops initApp
  have hlang : (runOps ops).language = "en" := h.1
  have hdet : (runOps ops).auto_detect_language = false := h.2
  have hh : langHint (runOps ops) = some "en" := by simp [langHint, hlang]
  refine ⟨hlang, hdet, hh, ?_⟩
  intro env l hmem
  rw [process_transcription_lang_events (runOps ops) env l hmem, hh]

/-- C9 witness: the statement at the empty operation sequence, with the
transcribe invocation of a successful pipeline run. -/
theorem menubar_language_always_en_w :
    (runOps []).language = "en" ∧ some "en" = some "en" :=
  ⟨(menubar_language_always_en []).1,
   (menubar_language_always_en []).2.2.2 envOk (some "en") (by decide)⟩

/-- C10: both scripts initialize last_tap_time to 0, the epoch, rather than
to a no-previous-tap sentinel, so a freshly constructed detector activates
on a single first key-down at any time t with t - 0 < double_tap_window. -/
theorem fresh_detector_first_tap_activates (delay t : ℚ)
    (h : t - initTapState.last_tap_time < delay) :
    initTapState.last_tap_time = 0 ∧
    (tapStep delay initTapState t).2 = true ∧
    tapActivations delay [t] = 1 := by
  have h2 : t < delay := by
    have h0 : t - (0 : ℚ) < delay := h
    linarith
  refine ⟨rfl, ?_, ?_⟩
  · simp [tapStep, initTapState, h2]
  · simp [tapActivations, List.foldl, tapStep, initTapState, h2]

/-- C10 witness: the statement at a first tap 0.1 s after the epoch with the
default 0.3 s window. -/
theorem fresh_detector_first_tap_activates_w :
    initTapState.last_tap_time = 0 ∧
    (tapStep (3/10) initTapState (1/10)).2 = true ∧
    tapActivations (3/10) [1/10] = 1 :=
  fresh_detector_first_tap_activates (3/10) (1/10)
    (by norm_num [initTapState])
